import Mathlib

/-!
Verification of the Noir_agent conversational-assistant repository.

The Python source is shallowly embedded: pure functions become Lean
functions; I/O-dependent functions take the outcome of the I/O as an
explicit parameter; a Python function that catches exceptions is modelled
as a total Lean function whose fallible inputs are `Except`/sum values.
-/

/- ===== String primitives =====
Python's `str.lower`, `str.strip` and the `in` operator on strings, embedded
as structurally recursive functions over a string's character list (the core
`String.toLower`/`String.trim` are extensionally the same on the ASCII data
this program handles, but are defined by well-founded recursion on byte
positions, which the kernel cannot evaluate). -/

/-- Python `s.lower()` (ASCII case folding, matching the data in this repo). -/
def pyLower (s : String) : String := ⟨s.data.map Char.toLower⟩

/-- Python `s.strip()`: remove leading and trailing whitespace. -/
def pyStrip (s : String) : String :=
  ⟨((s.data.dropWhile Char.isWhitespace).reverse.dropWhile Char.isWhitespace).reverse⟩

/-- Python `c in s` for a single character `c`. -/
def pyContainsChar (s : String) (c : Char) : Bool := s.data.contains c

/- ===== src/tools/implementation.py ===== -/

/-- A registered portfolio project (entry of `PROJECTS_DATA`). -/
structure Project where
  name : String
  description : String
  tags : List String
  architecture_notes : String
deriving DecidableEq, Repr

/-- The projection of a project returned by `listProjects`
(the dict with keys name, description, tags). -/
structure ProjectSummary where
  name : String
  description : String
  tags : List String
deriving DecidableEq, Repr

/-- The static mock data `PROJECTS_DATA` of src/tools/implementation.py,
in registration order. -/
def PROJECTS_DATA : List Project :=
  [ { name := "UptimeGuard"
    , description := "Decentralized uptime monitoring with crypto-verified validators."
    , tags := ["React", "Express", "Node.js", "PostgreSQL", "WebSockets", "Prisma"]
    , architecture_notes := "Built tracking website status in real-time with historical analytics." }
  , { name := "GoPlanIt"
    , description := "AI travel itineraries using real-time flight and attraction data."
    , tags := ["React", "Node.js", "Express", "Gemini API", "Inngest", "MongoDB"]
    , architecture_notes := "Delivered tailored recommendations simplifying travel planning. Handled async processing via Inngest." }
  , { name := "Airgpt"
    , description := "RAG system built for Air University."
    , tags := ["Next.js", "React", "FastAPI", "Python", "Qdrant", "LangChain"]
    , architecture_notes := "Answers user queries by searching and reasoning over ingested documents using a vector database (Qdrant)." } ]

/-- The summary dict `{"name": ..., "description": ..., "tags": ...}` built for
each project returned by `listProjects`. -/
def summaryOf (p : Project) : ProjectSummary :=
  { name := p.name, description := p.description, tags := p.tags }

/-- `tagMatch fs p` embeds `any(f in tags_lower for f in filter_lower)` of
`listProjects`: some lower-cased filter element is an element (exact equality,
not substring) of the project's lower-cased tag list. -/
def tagMatch (fs : List String) (p : Project) : Bool :=
  fs.any (fun f => (p.tags.map pyLower).contains (pyLower f))

/-- `listProjects` of src/tools/implementation.py. The Python parameter
`filters: Optional[List[str]] = None` is `Option (List String)`; the guard
`if not filters` is true for both `None` and the empty list. -/
def listProjects (filters : Option (List String)) : List ProjectSummary :=
  match filters with
  | none => PROJECTS_DATA.map summaryOf
  | some fs =>
      if fs.isEmpty then PROJECTS_DATA.map summaryOf
      else (PROJECTS_DATA.filter (tagMatch fs)).map summaryOf

/-- Result of `explainProject`: either the detail dict
`{"name": ..., "architecture_notes": ..., "tags": ...}` or the structured
not-found dict `{"error": ...}`. The Python function always returns one of
these two dicts and never raises, hence a total sum-valued function. -/
inductive ExplainResult where
  | found (name : String) (architecture_notes : String) (tags : List String)
  | error (msg : String)
deriving DecidableEq, Repr

/-- A single apostrophe character, used in the not-found message of
`explainProject`. -/
def squote : String := String.singleton (Char.ofNat 39)

/-- `explainProject` of src/tools/implementation.py: scan `PROJECTS_DATA`
for the first project whose lower-cased name equals the lower-cased query
(`List.find?` mirrors the Python for-loop with early return), else the
structured error dict naming the project. -/
def explainProject (name : String) : ExplainResult :=
  match PROJECTS_DATA.find? (fun p => pyLower p.name == pyLower name) with
  | some p => .found p.name p.architecture_notes p.tags
  | none => .error ("Project " ++ squote ++ name ++ squote ++ " not found in portfolio.")

/- ===== src/calendar_mcp.py ===== -/

/-- Outcome of the MCP discovery handshake
(`await asyncio.wait_for(client.get_tools(), timeout=60.0)`): either the list
of offered tool names, a `TimeoutError` after 60 seconds, or some other
connection/handshake exception with its message. -/
inductive DiscoveryOutcome where
  | success (tools : List String)
  | timeout
  | connError (msg : String)
deriving DecidableEq, Repr

/-- The allow-list `allowed_tools` of `get_calendar_tools`. -/
def allowed_tools : List String :=
  ["list-calendars", "list-events", "create-event", "update-event", "delete-event"]

/-- `get_calendar_tools` of src/calendar_mcp.py, as a function of its two
I/O-determined inputs: whether `credentials.json` exists, and the outcome of
the discovery handshake. The Python catches `asyncio.TimeoutError` and every
other `Exception` and returns `[]`; totality of this Lean function (it returns
a plain list, not an `Except`) embeds that no exception escapes. (Whether the
local node entry point exists only switches the launch command between `node`
and `npx` and does not change the returned value, so it is not a parameter.) -/
def get_calendar_tools (credsExists : Bool) (outcome : DiscoveryOutcome) : List String :=
  if !credsExists then []
  else
    match outcome with
    | .success tools => tools.filter (fun t => allowed_tools.contains t)
    | .timeout => []
    | .connError _ => []

/- ===== src/graph.py ===== -/

/-- `add_tz` nested in `book_meeting_tool` of src/graph.py:
`if "+" not in ts and "Z" not in ts: return ts + "+05:00"` else unchanged. -/
def add_tz (ts : String) : String :=
  if (!pyContainsChar ts '+') && (!pyContainsChar ts 'Z') then ts ++ "+05:00" else ts

/-- One element of the `attendees` array of the `create-event` payload. -/
structure Attendee where
  email : String
  optional : Bool
  responseStatus : String
deriving DecidableEq, Repr

/-- The `payload` dict `book_meeting_tool` delegates to the provider's
`create-event`. `attendees` is a genuine list of `Attendee` records, matching
the Python list-of-dicts (never a string). -/
structure EventPayload where
  account : String
  calendarId : String
  summary : String
  description : String
  start : String
  «end» : String
  attendees : List Attendee
  timeZone : String
deriving DecidableEq, Repr

/-- Construction of `payload` in `book_meeting_tool` of src/graph.py from the
tool's arguments. -/
def book_meeting_payload (name email start_time end_time description : String) :
    EventPayload :=
  { account := "normal"
  , calendarId := "primary"
  , summary := "Meeting with " ++ name
  , description := description
  , start := add_tz start_time
  , «end» := add_tz end_time
  , attendees := [{ email := email, optional := false, responseStatus := "needsAction" }]
  , timeZone := "Asia/Karachi" }

/-- Modelled from the spec (the source only checks for the characters `+` and
`Z`): a timestamp "specifies a UTC offset" when it ends in `Z` or in a
`±HH:MM` numeric offset. Used solely to compare the spec's wording with
`add_tz`. -/
def specHasUtcOffset (ts : String) : Bool :=
  (match ts.data.getLast? with
   | some c => c == 'Z'
   | none => false) ||
    (let cs := ts.data
     decide (6 ≤ cs.length) &&
       (match cs.drop (cs.length - 6) with
        | [s, d1, d2, c, d3, d4] =>
            (s == '+' || s == '-') && d1.isDigit && d2.isDigit &&
              (c == ':') && d3.isDigit && d4.isDigit
        | _ => false))

/-- The tool list bound to the LLM by `calendar_chatbot` of src/graph.py
(by tool name): the gateway's tools filtered to
`["list-calendars", "list-events"]`, plus the `book_meeting_tool` proxy. -/
def calendar_agent_tools (tools : List String) : List String :=
  tools.filter (fun t => (["list-calendars", "list-events"] : List String).contains t)
    ++ ["book_meeting_tool"]

/-- The portfolio tool names of src/graph.py (`portfolio_tools`). -/
def portfolio_tool_names : List String :=
  ["get_profile_tool", "list_projects_tool", "explain_project_tool",
   "get_availability_tool", "analyze_job_fit_tool"]

/-- `all_tools` handed to the `ToolNode` in `create_portfolio_graph` of
src/graph.py: portfolio tools, the read-only calendar tools, and the
`book_meeting_tool` proxy. -/
def all_tools (cal_tools : List String) : List String :=
  portfolio_tool_names
    ++ cal_tools.filter (fun t => (["list-calendars", "list-events"] : List String).contains t)
    ++ ["book_meeting_tool"]

/-- `as` is an initial segment of `bs` (character-list version of Python
`str.startswith`,
used to build the substring test below). -/
def listStartsWith : List Char → List Char → Bool
  | [], _ => true
  | _ :: _, [] => false
  | a :: as, b :: bs => a == b && listStartsWith as bs

/-- `needle` occurs as a contiguous substring of `hay` (character-list version
of the Python `in` operator on strings). -/
def listHasSub (needle : List Char) : List Char → Bool
  | [] => listStartsWith needle []
  | c :: rest => listStartsWith needle (c :: rest) || listHasSub needle rest

/-- Python `needle in hay` on strings. -/
def strContains (needle hay : String) : Bool :=
  listHasSub needle.data hay.data

/-- The decision tail of `identify_intent` in src/graph.py, as a function of
the classification LLM's returned content:
`decision = response.content.lower().strip()`, then
`if 'calendar' in decision: calendar else portfolio`
(the returned `active_agent` value). -/
def identify_intent (content : String) : String :=
  let decision := pyStrip (pyLower content)
  if strContains "calendar" decision then "calendar" else "portfolio"

/- ===== src/orchestrator.py ===== -/

/-- The `trace` dict of `orchestrate_query` in src/orchestrator.py.
`tool_args` is an association list of argument name/value pairs (a JSON
object); the latency fields are milliseconds. -/
structure OrchTrace where
  intent_detected : String
  tool_selected : String
  tool_args : List (String × String)
  tool_latency_ms : Nat
  total_latency_ms : Nat
deriving DecidableEq, Repr

/-- The `{"response": ..., "trace": ...}` dict returned by
`orchestrate_query`. -/
structure OrchResult where
  response : String
  trace : OrchTrace
deriving DecidableEq, Repr

/-- The external calls `orchestrate_query` can perform after its credential
guard (LLM invocations and tool executions); used to record which external
interactions a run attempts. -/
inductive ExternalCall where
  | llmInvoke
  | toolInvoke (name : String)
deriving DecidableEq, Repr

/-- Python truthiness of `os.getenv("GROQ_API_KEY")` under `not`: the
variable is absent (`None`) or set to the empty string. -/
def envFalsy : Option String → Bool
  | none => true
  | some s => s.data.isEmpty

/-- `orchestrate_query` of src/orchestrator.py. The credential guard is first:
when `not os.getenv("GROQ_API_KEY")` it returns the configuration-error
envelope immediately. Everything after the guard (the `llm_with_tools.invoke`
call, tool execution, synthesis) performs external I/O and is abstracted as
the continuation `rest`; the second component of the result lists the
external calls attempted. `elapsed_ms` stands for the wall-clock
`round((time.time() - start_time) * 1000, 2)` of the guard branch. -/
def orchestrate_query (groq_api_key : Option String) (elapsed_ms : Nat)
    (rest : Unit → OrchResult × List ExternalCall) : OrchResult × List ExternalCall :=
  if envFalsy groq_api_key then
    ({ response := "Error: GROQ_API_KEY is not set in the environment. Please add it to your .env file."
     , trace :=
        { intent_detected := "Error"
        , tool_selected := "None"
        , tool_args := []
        , tool_latency_ms := 0
        , total_latency_ms := elapsed_ms } }, [])
  else rest ()

/- ===== src/main.py ===== -/

/-- The request body of the `/chat` endpoint (`ChatRequest`); pydantic fills
`session_id` with `"default"` when omitted, so here it is already a plain
string. -/
structure ChatRequest where
  message : String
  session_id : String
deriving DecidableEq, Repr

/-- The `trace` field of the `/chat` response: on success the orchestrator's
trace, on a caught exception the dict `{"error": True, "detail": str(e)}`. -/
inductive ChatTrace where
  | ok (t : OrchTrace)
  | err (detail : String)
deriving DecidableEq, Repr

/-- The response envelope of the `/chat` endpoint. -/
structure ChatResponse where
  response : String
  session_id : String
  trace : ChatTrace
deriving DecidableEq, Repr

/-- `chat_endpoint` of src/main.py. The `await orchestrate_query(...)` call
either produces a result or raises; that fallible call is the `Except` input.
The endpoint's `try/except Exception` is embedded by totality: both branches
produce a well-formed `ChatResponse`, the `except` branch building
`"Internal Server Error: " + str(e)` and the error trace. -/
def chat_endpoint (request : ChatRequest) (orchestrate : Except String OrchResult) :
    ChatResponse :=
  match orchestrate with
  | .ok result =>
      { response := result.response
      , session_id := request.session_id
      , trace := .ok result.trace }
  | .error e =>
      { response := "Internal Server Error: " ++ e
      , session_id := request.session_id
      , trace := .err e }

/- ===== Theorems ===== -/

/-- C10: `listProjects` called with an empty filter list behaves identically
to being called with no filter at all: it returns all registered projects
(any falsy `filters` value is treated as no filter). -/
theorem listProjects_empty_filter_eq_none :
    listProjects (some []) = listProjects none ∧
      listProjects (some []) = PROJECTS_DATA.map summaryOf := by
  exact ⟨rfl, rfl⟩

/-- C3: for every failure mode of calendar-capability discovery — missing
credential file, discovery timeout, or a connection/handshake error —
`get_calendar_tools` returns the empty tool list; being a total function into
`List String` (not `Except`), it propagates no exception to its caller. -/
theorem get_calendar_tools_failure_empty (credsExists : Bool)
    (outcome : DiscoveryOutcome)
    (h : credsExists = false ∨ outcome = .timeout ∨ ∃ e, outcome = .connError e) :
    get_calendar_tools credsExists outcome = [] := by
  rcases h with h | h | ⟨e, h⟩
  · subst h; rfl
  · subst h; cases credsExists <;> rfl
  · subst h; cases credsExists <;> rfl

/-- Witness for C3: a timed-out discovery with the credential file present
yields the empty tool list. -/
theorem get_calendar_tools_failure_empty_witness :
    get_calendar_tools true DiscoveryOutcome.timeout = [] :=
  get_calendar_tools_failure_empty true DiscoveryOutcome.timeout (Or.inr (Or.inl rfl))

/-- C5: whatever tool set the gateway returns, the tools `calendar_chatbot`
binds to the LLM in scheduling mode are only the read-only calendar tools
plus the `book_meeting_tool` proxy; the mutating provider operations
(`create-event`, `update-event`, `delete-event`) are never among them, nor
among the `ToolNode` tools of `create_portfolio_graph`. -/
theorem calendar_binding_allowlist (tools : List String) :
    (∀ t ∈ calendar_agent_tools tools,
        t = "list-calendars" ∨ t = "list-events" ∨ t = "book_meeting_tool") ∧
      "create-event" ∉ calendar_agent_tools tools ∧
      "update-event" ∉ calendar_agent_tools tools ∧
      "delete-event" ∉ calendar_agent_tools tools ∧
      "create-event" ∉ all_tools tools ∧
      "update-event" ∉ all_tools tools ∧
      "delete-event" ∉ all_tools tools := by
  have hmem : ∀ s : String, s ∈ calendar_agent_tools tools →
      (s ∈ (["list-calendars", "list-events"] : List String) ∨ s = "book_meeting_tool") := by
    intro s hs
    rcases List.mem_append.mp hs with h1 | h2
    · have hp := List.of_mem_filter h1
      simp only [List.contains, List.elem_iff] at hp
      exact Or.inl hp
    · right
      simpa using h2
  have hnot : ∀ s : String,
      s ∉ (["list-calendars", "list-events"] : List String) → s ≠ "book_meeting_tool" →
      s ∉ calendar_agent_tools tools := by
    intro s hs1 hs2 hs
    rcases hmem s hs with h | h
    · exact hs1 h
    · exact hs2 h
  have hall : ∀ s : String,
      s ∉ portfolio_tool_names →
      s ∉ (["list-calendars", "list-events"] : List String) → s ≠ "book_meeting_tool" →
      s ∉ all_tools tools := by
    intro s h0 h1 h2 hs
    rcases List.mem_append.mp hs with h | h
    · rcases List.mem_append.mp h with h | h
      · exact h0 h
      · have hp := List.of_mem_filter h
        simp only [List.contains, List.elem_iff] at hp
        exact h1 hp
    · exact h2 (by simpa using h)
  refine ⟨?_, ?_, ?_, ?_, ?_, ?_, ?_⟩
  · intro t ht
    rcases hmem t ht with h | h
    · have h' : t = "list-calendars" ∨ t = "list-events" := by simpa using h
      exact h'.imp id Or.inl
    · exact Or.inr (Or.inr h)
  · exact hnot _ (by decide) (by decide)
  · exact hnot _ (by decide) (by decide)
  · exact hnot _ (by decide) (by decide)
  · exact hall _ (by decide) (by decide) (by decide)
  · exact hall _ (by decide) (by decide) (by decide)
  · exact hall _ (by decide) (by decide) (by decide)

/-- Witness for C5: with the gateway offering the full allow-list, the bound
set keeps only the read-only tools plus the proxy, and `create-event` is not
bound. -/
theorem calendar_binding_allowlist_witness :
    ("list-events" = "list-calendars" ∨ "list-events" = "list-events" ∨
        "list-events" = "book_meeting_tool") ∧
      "create-event" ∉ calendar_agent_tools
        ["list-calendars", "list-events", "create-event", "update-event", "delete-event"] :=
  ⟨(calendar_binding_allowlist
      ["list-calendars", "list-events", "create-event", "update-event", "delete-event"]).1
      "list-events" (by decide),
   (calendar_binding_allowlist
      ["list-calendars", "list-events", "create-event", "update-event", "delete-event"]).2.1⟩

/-- C6: for every string the classification LLM returns, `identify_intent`
yields exactly one of the two modes, and any content whose lower-cased,
stripped form does not contain the word calendar defaults to the portfolio
(informational) mode. -/
theorem identify_intent_two_modes (content : String) :
    (identify_intent content = "calendar" ∨ identify_intent content = "portfolio") ∧
      ¬(identify_intent content = "calendar" ∧ identify_intent content = "portfolio") ∧
      (strContains "calendar" (pyStrip (pyLower content)) = false →
        identify_intent content = "portfolio") := by
  refine ⟨?_, ?_, ?_⟩
  · unfold identify_intent
    cases h : strContains "calendar" (pyStrip (pyLower content)) <;> simp [h]
  · rintro ⟨h1, h2⟩
    rw [h1] at h2
    exact absurd h2 (by decide)
  · intro h
    simp [identify_intent, h]

/-- Witness for C6: a content with no calendar token maps to portfolio. -/
theorem identify_intent_two_modes_witness :
    identify_intent "tell me about his projects" = "portfolio" :=
  (identify_intent_two_modes "tell me about his projects").2.2 (by decide)

/-- C8: when `GROQ_API_KEY` is absent (or empty), `orchestrate_query` returns
the configuration-error envelope — response text the explanatory message,
trace with `intent_detected = "Error"` — and the list of attempted external
calls is empty (nothing of the continuation after the guard runs), for every
possible continuation; in particular it does not crash (total function). -/
theorem orchestrate_query_missing_key (groq_api_key : Option String)
    (elapsed_ms : Nat) (rest : Unit → OrchResult × List ExternalCall)
    (h : envFalsy groq_api_key = true) :
    orchestrate_query groq_api_key elapsed_ms rest =
      ({ response := "Error: GROQ_API_KEY is not set in the environment. Please add it to your .env file."
        , trace :=
          { intent_detected := "Error"
          , tool_selected := "None"
          , tool_args := []
          , tool_latency_ms := 0
          , total_latency_ms := elapsed_ms } }, []) := by
  simp [orchestrate_query, h]

/-- Witness for C8: with the variable unset, the guard branch fires. -/
theorem orchestrate_query_missing_key_witness :
    orchestrate_query none 0 (fun _ => (⟨"unused", ⟨"a", "b", [], 0, 0⟩⟩, [.llmInvoke])) =
      ({ response := "Error: GROQ_API_KEY is not set in the environment. Please add it to your .env file."
        , trace :=
          { intent_detected := "Error"
          , tool_selected := "None"
          , tool_args := []
          , tool_latency_ms := 0
          , total_latency_ms := 0 } }, []) :=
  orchestrate_query_missing_key none 0 _ (by decide)

/-- C9: for every exception raised inside the request pipeline (the `Except`
input), `chat_endpoint` returns a well-formed response envelope whose text
reports an internal error and whose trace carries the exception detail; the
function is total, so no fault propagates to the HTTP caller. -/
theorem chat_endpoint_catches_all (request : ChatRequest) (e : String) :
    chat_endpoint request (.error e) =
      { response := "Internal Server Error: " ++ e
      , session_id := request.session_id
      , trace := .err e } := rfl

/-- C4 counterexample: the timestamp `2026-02-25T14:00:00-05:00` already
specifies a UTC offset (per the spec-side reading of offsets), yet the
payload does not forward it unchanged: `add_tz` appends another `+05:00`
because it only tests for the characters `+` and `Z`. -/
theorem add_tz_negative_offset_counterexample :
    specHasUtcOffset "2026-02-25T14:00:00-05:00" = true ∧
      (book_meeting_payload "Jane" "jane@x.com" "2026-02-25T14:00:00-05:00"
          "2026-02-25T15:00:00-05:00" "").start ≠ "2026-02-25T14:00:00-05:00" ∧
      (book_meeting_payload "Jane" "jane@x.com" "2026-02-25T14:00:00-05:00"
          "2026-02-25T15:00:00-05:00" "").start = "2026-02-25T14:00:00-05:00+05:00" := by
  refine ⟨by decide, by decide, by decide⟩

/-- C4 (amended): a start/end timestamp containing neither a `+` character
nor a `Z` character is carried in the payload with `+05:00` appended; one
containing `+` or `Z` (which covers `Z`-suffixed and positive-offset
timestamps, but not negative offsets) is forwarded unchanged; and the
attendee email is passed as a genuine one-element array of attendee objects,
never as an encoded string. -/
theorem book_meeting_payload_normalization (name email st et d : String) :
    ((pyContainsChar st '+' = false ∧ pyContainsChar st 'Z' = false) →
        (book_meeting_payload name email st et d).start = st ++ "+05:00") ∧
      ((pyContainsChar st '+' = true ∨ pyContainsChar st 'Z' = true) →
        (book_meeting_payload name email st et d).start = st) ∧
      ((pyContainsChar et '+' = false ∧ pyContainsChar et 'Z' = false) →
        (book_meeting_payload name email st et d).«end» = et ++ "+05:00") ∧
      ((pyContainsChar et '+' = true ∨ pyContainsChar et 'Z' = true) →
        (book_meeting_payload name email st et d).«end» = et) ∧
      (book_meeting_payload name email st et d).attendees =
        [{ email := email, optional := false, responseStatus := "needsAction" }] ∧
      (book_meeting_payload name email st et d).attendees.length = 1 := by
  refine ⟨?_, ?_, ?_, ?_, rfl, rfl⟩
  · rintro ⟨h1, h2⟩
    simp [book_meeting_payload, add_tz, h1, h2]
  · rintro (h | h) <;> simp [book_meeting_payload, add_tz, h]
  · rintro ⟨h1, h2⟩
    simp [book_meeting_payload, add_tz, h1, h2]
  · rintro (h | h) <;> simp [book_meeting_payload, add_tz, h]

/-- Distinct registered projects have distinct summaries (the three entries
of `PROJECTS_DATA` have pairwise different names). -/
theorem summaryOf_inj_on_data :
    ∀ q ∈ PROJECTS_DATA, ∀ p ∈ PROJECTS_DATA, summaryOf q = summaryOf p → q = p := by
  decide

/-- `tagMatch` holds exactly when some filter element is case-insensitively
equal to one of the project's tags (exact equality, not substring). -/
theorem tagMatch_iff (fs : List String) (p : Project) :
    tagMatch fs p = true ↔ ∃ f ∈ fs, ∃ t ∈ p.tags, pyLower f = pyLower t := by
  simp only [tagMatch, List.any_eq_true, List.contains, List.elem_iff, List.mem_map]
  constructor
  · rintro ⟨f, hf, t, ht, h⟩
    exact ⟨f, hf, t, ht, h.symm⟩
  · rintro ⟨f, hf, t, ht, h⟩
    exact ⟨f, hf, t, ht, h.symm⟩

/-- With a non-empty filter list, `listProjects` is the tag filter over the
registered projects. -/
theorem listProjects_some_ne_nil (fs : List String) (hne : fs ≠ []) :
    listProjects (some fs) = (PROJECTS_DATA.filter (tagMatch fs)).map summaryOf := by
  cases fs with
  | nil => exact absurd rfl hne
  | cons a l => rfl

/-- C2: `listProjects` with no filter returns every registered project
(name, description, tags — in registration order); with a non-empty filter
in which no element case-insensitively equals any tag it returns the empty
collection; and a registered project's summary is in the result exactly when
some filter element case-insensitively equals one of its tags. -/
theorem listProjects_filter_spec :
    (listProjects none = PROJECTS_DATA.map summaryOf) ∧
      (∀ fs : List String, fs ≠ [] →
        (∀ f ∈ fs, ∀ p ∈ PROJECTS_DATA, ∀ t ∈ p.tags, pyLower f ≠ pyLower t) →
        listProjects (some fs) = []) ∧
      (∀ fs : List String, fs ≠ [] → ∀ p ∈ PROJECTS_DATA,
        (summaryOf p ∈ listProjects (some fs) ↔
          ∃ f ∈ fs, ∃ t ∈ p.tags, pyLower f = pyLower t)) := by
  refine ⟨rfl, ?_, ?_⟩
  · intro fs hne h
    rw [listProjects_some_ne_nil fs hne]
    have hnil : PROJECTS_DATA.filter (tagMatch fs) = [] := by
      rw [List.filter_eq_nil_iff]
      intro p hp
      rw [tagMatch_iff]
      rintro ⟨f, hf, t, ht, heq⟩
      exact h f hf p hp t ht heq
    rw [hnil]
    rfl
  · intro fs hne p hp
    rw [listProjects_some_ne_nil fs hne]
    constructor
    · intro hmem
      rcases List.mem_map.mp hmem with ⟨q, hq, hsq⟩
      rcases List.mem_filter.mp hq with ⟨hqd, hqt⟩
      have hqp : q = p := summaryOf_inj_on_data q hqd p hp hsq
      subst hqp
      exact (tagMatch_iff fs q).mp hqt
    · intro hex
      exact List.mem_map.mpr
        ⟨p, List.mem_filter.mpr ⟨hp, (tagMatch_iff fs p).mpr hex⟩, rfl⟩

/-- Witness for C2: the filter `["quantum"]` matches no tag and yields the
empty collection; the filter `["react", "python"]` includes the first
registered project through the exact case-insensitive tag match on React. -/
theorem listProjects_filter_spec_witness :
    listProjects (some ["quantum"]) = [] ∧
      summaryOf
        { name := "UptimeGuard"
        , description := "Decentralized uptime monitoring with crypto-verified validators."
        , tags := ["React", "Express", "Node.js", "PostgreSQL", "WebSockets", "Prisma"]
        , architecture_notes := "Built tracking website status in real-time with historical analytics." }
        ∈ listProjects (some ["react", "python"]) :=
  ⟨listProjects_filter_spec.2.1 ["quantum"] (by decide) (by decide),
   (listProjects_filter_spec.2.2 ["react", "python"] (by decide) _ (by decide)).mpr
     ⟨"react", by decide, "React", by decide, by decide⟩⟩

/-- C7: `explainProject` with a name matching no registered project under
case-insensitive comparison returns the structured not-found value naming the
project (and, being total, never raises); with a case-insensitively matching
name it returns that project's name, architecture notes and tags. -/
theorem explainProject_case_insensitive (name : String) :
    ((∀ p ∈ PROJECTS_DATA, pyLower p.name ≠ pyLower name) →
        explainProject name =
          .error ("Project " ++ squote ++ name ++ squote ++ " not found in portfolio.")) ∧
      (∀ p ∈ PROJECTS_DATA, pyLower p.name = pyLower name →
        explainProject name = .found p.name p.architecture_notes p.tags) := by
  constructor
  · intro h
    unfold explainProject
    have hf : PROJECTS_DATA.find? (fun p => pyLower p.name == pyLower name) = none := by
      rw [List.find?_eq_none]
      intro p hp hbeq
      exact h p hp (eq_of_beq hbeq)
    rw [hf]
  · intro p hp heq
    have hp' := hp
    simp only [PROJECTS_DATA, List.mem_cons, List.mem_singleton,
      List.not_mem_nil, or_false] at hp'
    rcases hp' with rfl | rfl | rfl
    · have hlow : pyLower name = "uptimeguard" := by rw [← heq]; decide
      simp only [explainProject, hlow]
      rfl
    · have hlow : pyLower name = "goplanit" := by rw [← heq]; decide
      simp only [explainProject, hlow]
      rfl
    · have hlow : pyLower name = "airgpt" := by rw [← heq]; decide
      simp only [explainProject, hlow]
      rfl

/-- Witness for C7: a differently-cased known name is found; an unknown name
yields the structured not-found value. -/
theorem explainProject_case_insensitive_witness :
    explainProject "airGPT" =
        .found "Airgpt"
          "Answers user queries by searching and reasoning over ingested documents using a vector database (Qdrant)."
          ["Next.js", "React", "FastAPI", "Python", "Qdrant", "LangChain"] ∧
      explainProject "TurboTax" =
        .error ("Project " ++ squote ++ "TurboTax" ++ squote ++ " not found in portfolio.") :=
  ⟨(explainProject_case_insensitive "airGPT").2
      { name := "Airgpt"
      , description := "RAG system built for Air University."
      , tags := ["Next.js", "React", "FastAPI", "Python", "Qdrant", "LangChain"]
      , architecture_notes := "Answers user queries by searching and reasoning over ingested documents using a vector database (Qdrant)." }
      (by decide) (by decide),
   (explainProject_case_insensitive "TurboTax").1 (by decide)⟩

/-- Witness for C4 (amended): an offset-free timestamp gets `+05:00`
appended in the delegated payload. -/
theorem book_meeting_payload_normalization_witness :
    (book_meeting_payload "Jane" "jane@x.com" "2026-02-25T14:00:00"
        "2026-02-25T15:00:00" "").start = "2026-02-25T14:00:00" ++ "+05:00" :=
  (book_meeting_payload_normalization "Jane" "jane@x.com" "2026-02-25T14:00:00"
      "2026-02-25T15:00:00" "").1 ⟨by decide, by decide⟩
